import Mathlib

set_option maxRecDepth 4096

/-!
Shallow embedding of `src/video_processor.py` (class `VideoLinkProcessor`).

Python strings are modelled as Lean `String`; every Python string operation
used by the program is re-implemented over `List Char` (the `.data` of a
`String`) so that everything reduces in the kernel.  Character classes are
the ASCII fragment used by the program's inputs.  Nondeterministic
environment inputs (UUIDs, clock, the external `yt_dlp` resolver, the file
system, `random.uniform` inter-item sleeps) are passed as explicit
parameters / oracles; `time.sleep` has no observable effect and is recorded
only where a claim talks about delays.
-/

/-- Model of Python's substring test `pat in s`, on character lists:
`containsSeq s pat` is `true` iff `pat` occurs contiguously inside `s`
(the empty pattern occurs in every string). -/
def containsSeq : List Char → List Char → Bool
  | [], pat => pat.isEmpty
  | s@(_ :: cs), pat => pat.isPrefixOf s || containsSeq cs pat

/-- Model of Python `pat in s` on `String`. -/
def strContains (s pat : String) : Bool :=
  containsSeq s.data pat.data

/-- Model of Python `s.startswith(pat)`. -/
def strStartsWith (s pat : String) : Bool :=
  pat.data.isPrefixOf s.data

/-- Model of Python `s.lower()` (ASCII). -/
def lowerStr (s : String) : String :=
  ⟨s.data.map Char.toLower⟩

/-- Model of Python `s.upper()` (ASCII). -/
def upperStr (s : String) : String :=
  ⟨s.data.map Char.toUpper⟩

/-- Model of Python slicing `s[:n]`. -/
def pyTake (s : String) (n : Nat) : String :=
  ⟨s.data.take n⟩

/-- Model of Python `s.strip()`: drop whitespace from both ends. -/
def pyStrip (s : String) : String :=
  ⟨((s.data.dropWhile Char.isWhitespace).reverse.dropWhile Char.isWhitespace).reverse⟩

/-- Model of Python `s.split(sep)` for a single-character separator:
splits at every occurrence, keeping empty pieces. -/
def splitChar (sep : Char) : List Char → List (List Char)
  | [] => [[]]
  | c :: cs =>
    if c == sep then [] :: splitChar sep cs
    else
      match splitChar sep cs with
      | [] => [[c]]
      | p :: ps => (c :: p) :: ps

/-- Word characters of the regex class `\w` (ASCII fragment): letters,
digits and underscore. -/
def isWordChar (c : Char) : Bool :=
  c.isAlphanum || c == '_'

/-- Fuelled helper for `wordRuns`; the fuel only forces structural
recursion (any fuel at least the list's length gives the runs). -/
def wordRunsF : Nat → List Char → List (List Char)
  | 0, _ => []
  | _, [] => []
  | fuel + 1, c :: cs =>
    if isWordChar c then
      (c :: cs.takeWhile isWordChar) :: wordRunsF fuel (cs.dropWhile isWordChar)
    else
      wordRunsF fuel cs

/-- Model of `re.findall(r'\b\w+\b', s)` on character lists: the maximal
runs of word characters of `s`, in order. -/
def wordRuns (l : List Char) : List (List Char) :=
  wordRunsF l.length l

/-- Characters matched by the regex class `[-\s]` (hyphen or whitespace). -/
def isDashOrSpace (c : Char) : Bool :=
  c == '-' || c.isWhitespace

/-- Fuelled helper for `collapseRuns`; the fuel only forces structural
recursion (any fuel at least the list's length gives the result). -/
def collapseRunsF : Nat → List Char → List Char
  | 0, _ => []
  | _, [] => []
  | fuel + 1, c :: cs =>
    if isDashOrSpace c then
      '_' :: collapseRunsF fuel (cs.dropWhile isDashOrSpace)
    else
      c :: collapseRunsF fuel cs

/-- Model of `re.sub(r'[-\s]+', '_', s)` on character lists: every maximal
run of hyphens/whitespace becomes a single underscore. -/
def collapseRuns (l : List Char) : List Char :=
  collapseRunsF l.length l

/-! ## Model of `urllib.parse.urlparse(url).path`

The program derives file extensions from `urlparse(url).path`
(`get_file_extension`, source lines 186-192).  `urlparse` is the Python
standard library; the definitions below model its path extraction:
strip the fragment (`#...`), strip a well-formed `scheme:`, strip a
`//netloc` part, strip the query (`?...`), and split parameters (`;...`
in the last path segment). -/

/-- Characters allowed in a URL scheme after the leading letter. -/
def schemeChar (c : Char) : Bool :=
  c.isAlpha || c.isDigit || c == '+' || c == '-' || c == '.'

/-- Drop the fragment: everything from the first `#` on. -/
def splitFragment (url : String) : String :=
  ⟨(splitChar '#' url.data).headD []⟩

/-- Drop a leading `scheme:` when the part before the first `:` is a
non-empty run of scheme characters starting with a letter. -/
def stripScheme (url : String) : String :=
  let l := url.data
  let pre := l.takeWhile (fun c => c != ':')
  if pre.length < l.length && !pre.isEmpty &&
      (pre.headD ' ').isAlpha && pre.all schemeChar then
    ⟨l.drop (pre.length + 1)⟩
  else url

/-- Drop a leading `//netloc`: after `//`, the netloc extends up to the
first `/`, `?` or `#`. -/
def stripNetloc (url : String) : String :=
  if strStartsWith url "//" then
    ⟨(url.data.drop 2).dropWhile (fun c => c != '/' && c != '?' && c != '#')⟩
  else url

/-- Drop the query: everything from the first `?` on. -/
def stripQuery (url : String) : String :=
  ⟨(splitChar '?' url.data).headD []⟩

/-- Split URL parameters off the path: when `;` occurs, the parameters are
everything after the first `;` of the last `/`-segment (or of the whole
string when there is no `/`). -/
def splitParamsPath (p : String) : String :=
  if strContains p ";" then
    if strContains p "/" then
      let segs := splitChar '/' p.data
      let lastSeg := segs.getLastD []
      if containsSeq lastSeg [';'] then
        ⟨List.intercalate ['/'] (segs.dropLast ++ [(splitChar ';' lastSeg).headD []])⟩
      else p
    else ⟨(splitChar ';' p.data).headD []⟩
  else p

/-- The `.path` of Python's `urlparse`. -/
def urlparse_path (url : String) : String :=
  splitParamsPath (stripQuery (stripNetloc (stripScheme (splitFragment url))))

/-! ## Heuristic derivers (source lines 182-251) -/

/-- Source `is_hls_url` (lines 182-184): `'.m3u8' in url.lower()`. -/
def is_hls_url (url : String) : Bool :=
  strContains (lowerStr url) ".m3u8"

/-- Source `get_file_extension` (lines 186-192): from `urlparse(url).path`,
when it contains a dot, take the part after the last dot, cut at `?`,
lower-case; otherwise the empty string. -/
def get_file_extension (url : String) : String :=
  let path := urlparse_path url
  if strContains path "." then
    lowerStr ⟨(splitChar '?' ((splitChar '.' path.data).getLastD [])).headD []⟩
  else ""

/-- The `codec_map.get(ext, 'MP4A')` lookup of `get_codec_info`
(source lines 197-205). -/
def codec_of_ext (ext : String) : String :=
  if ext = "m4a" then "MP4A"
  else if ext = "mp4" then "MP4A"
  else if ext = "mp3" then "MP3"
  else if ext = "aac" then "AAC"
  else if ext = "webm" then "OPUS"
  else if ext = "ogg" then "OGG"
  else if ext = "m3u8" then "HLS"
  else "MP4A"

/-- The `bitrate_map.get(ext, 128)` lookup of `get_codec_info`
(source lines 207-215): every entry is 128 and the default is 128. -/
def bitrate_of_ext (ext : String) : Nat :=
  if ext = "m4a" then 128
  else if ext = "mp4" then 128
  else if ext = "mp3" then 128
  else if ext = "aac" then 128
  else if ext = "webm" then 128
  else if ext = "ogg" then 128
  else if ext = "m3u8" then 128
  else 128

/-- Source `get_codec_info` (lines 194-217). -/
def get_codec_info (url : String) : String × Nat :=
  (codec_of_ext (get_file_extension url), bitrate_of_ext (get_file_extension url))

/-- The stop-word set `common_words` of `extract_tags_from_title`
(source line 222). -/
def common_words : List String :=
  ["the", "and", "or", "but", "in", "on", "at", "to", "for", "of", "with",
   "by", "official", "video", "audio", "hd", "tamil", "song"]

/-- Model of Python `sep.join(xs)`. -/
def pyJoin (sep : String) : List String → String
  | [] => ""
  | [x] => x
  | x :: xs => x ++ sep ++ pyJoin sep xs

/-- The word list of `extract_tags_from_title` after filtering and the
`[:6]` cut (source lines 221-224). -/
def tag_words (title : String) : List String :=
  (((wordRuns (lowerStr title).data).map (fun l => (⟨l⟩ : String))).filter
    (fun w => !(common_words.contains w) && decide (2 < w.length))).take 6

/-- Source `extract_tags_from_title` (lines 219-224): words of the
lower-cased title, stop words and words of length ≤ 2 dropped, first 6
kept, joined by commas. -/
def extract_tags_from_title (title : String) : String :=
  pyJoin "," (tag_words title)

/-- The ordered `language_indicators` table of `guess_language_from_title`
(source lines 230-237). -/
def language_indicators : List (String × List String) :=
  [("tamil", ["tamil", "tamizh", "tam"]),
   ("hindi", ["hindi", "hind"]),
   ("english", ["english", "eng"]),
   ("telugu", ["telugu", "tel"]),
   ("malayalam", ["malayalam", "mal"]),
   ("kannada", ["kannada", "kan"])]

/-- Model of Python `s.capitalize()`: first character upper-cased, the
rest lower-cased. -/
def pyCapitalize (s : String) : String :=
  match s.data with
  | [] => ""
  | c :: cs => ⟨c.toUpper :: cs.map Char.toLower⟩

/-- Source `guess_language_from_title` (lines 226-244): first language of
the table one of whose indicators occurs in the lower-cased title, as
`(language.capitalize(), language.upper()[:5])`; default `("Tamil","TAMIL")`. -/
def guess_language_from_title (title : String) : String × String :=
  match language_indicators.find?
      (fun p => p.2.any (fun ind => strContains (lowerStr title) ind)) with
  | some p => (pyCapitalize p.1, pyTake (upperStr p.1) 5)
  | none => ("Tamil", "TAMIL")

/-- Source `create_filename` (lines 246-251): drop every character that is
not a word character, whitespace or hyphen; collapse hyphen/whitespace
runs to `_`; append the derived extension, defaulting to `m4a`. -/
def create_filename (title url : String) : String :=
  let safe_title : String :=
    ⟨collapseRuns (title.data.filter (fun c => isWordChar c || c.isWhitespace || c == '-'))⟩
  let ext := get_file_extension url
  if ext ≠ "" then safe_title ++ "." ++ ext else safe_title ++ ".m4a"

/-! ## Extractor adapter (source lines 39-180)

The external `yt_dlp` resolver is modelled as an oracle mapping the index
of each `extract_info` invocation (0-based, counted across the primary
attempts and the fallback) to its outcome: a returned info dictionary,
a falsy result (`None`), or a raised exception with its message text. -/

/-- One entry of a yt-dlp `formats` list: the fields the program reads.
Absent dictionary keys are `none`; the `url` key is taken as present. -/
structure MediaFormat where
  vcodec : Option String
  acodec : Option String
  url : String
deriving DecidableEq

/-- The yt-dlp info dictionary: the fields the program reads.  Absent keys
are `none`. -/
structure ResolverInfo where
  url : Option String
  formats : List MediaFormat
  title : Option String
  description : Option String
  thumbnail : Option String
  duration : Option Nat
  uploader : Option String
  view_count : Option Nat
deriving DecidableEq

/-- Outcome of one `ydl.extract_info(url, download=False)` call. -/
inductive CallResult where
  | ok (info : Option ResolverInfo)
  | exn (msg : String)

/-- The dictionary `extract_video_info` returns on success
(source lines 101-109 and 166-175). -/
structure VideoInfo where
  title : String
  description : String
  thumbnail : String
  stream_url : String
  duration : Nat
  uploader : String
  view_count : Nat
deriving DecidableEq

/-- Stream-URL selection of the primary success path
(source lines 83-99): prefer a directly provided `url`; otherwise pick
from `formats`: the last audio-only format with a known-good audio codec,
else the last audio-only format, else the last format, else the input URL. -/
def select_stream_url (info : ResolverInfo) (url : String) : String :=
  match info.url with
  | some u => u
  | none =>
    let formats := info.formats
    let audio_formats := formats.filter
      (fun f => f.vcodec == some "none" && !(f.acodec == some "none"))
    if !audio_formats.isEmpty then
      let preferred_formats := audio_formats.filter
        (fun f => ["mp4a", "aac", "mp3"].any (fun codec => strContains (f.acodec.getD "") codec))
      if !preferred_formats.isEmpty then (preferred_formats.getLastD ⟨none, none, ""⟩).url
      else (audio_formats.getLastD ⟨none, none, ""⟩).url
    else if !formats.isEmpty then (formats.getLastD ⟨none, none, ""⟩).url
    else url

/-- The success dictionary built from an info dictionary and a chosen
stream URL (source lines 101-109 / 166-175): absent keys fall back to the
defaults of `info.get`. -/
def mk_video_info (info : ResolverInfo) (stream_url : String) : VideoInfo :=
  { title := info.title.getD "Unknown Title"
    description := info.description.getD ""
    thumbnail := info.thumbnail.getD ""
    stream_url := stream_url
    duration := info.duration.getD 0
    uploader := info.uploader.getD ""
    view_count := info.view_count.getD 0 }

/-- Error signature of YouTube bot detection (source line 116). -/
def bot_signature : String := "Sign in to confirm you\x27re not a bot"

/-- Source `extract_with_fallback` (lines 138-180), over the call oracle
starting at call index `k`; returns the result and the next call index.
A first (flat) extraction is attempted; if it yields an info dictionary
without a `url` key, a second full extraction with the `ios` client is
attempted and used when it has a `url` key; any raised exception is caught
and yields `None`. -/
def extract_with_fallback (oracle : Nat → CallResult) (url : String) (k : Nat) :
    Option VideoInfo × Nat :=
  match oracle k with
  | CallResult.exn _ => (none, k + 1)
  | CallResult.ok none => (none, k + 1)
  | CallResult.ok (some info) =>
    if info.url.isNone then
      match oracle (k + 1) with
      | CallResult.exn _ => (none, k + 2)
      | CallResult.ok none => (some (mk_video_info info (info.url.getD url)), k + 2)
      | CallResult.ok (some info_full) =>
        if info_full.url.isSome then
          (some (mk_video_info info_full (info_full.url.getD url)), k + 2)
        else (some (mk_video_info info (info.url.getD url)), k + 2)
    else (some (mk_video_info info (info.url.getD url)), k + 1)

/-- Source constant `max_retries = 2` (line 41). -/
def max_retries : Nat := 2

/-- Source constant `retry_delay = 5` (line 42). -/
def retry_delay : Nat := 5

/-- The sleep before a retry: `retry_delay * (attempt + 1)` seconds
(source line 131). -/
def retry_sleep_time (attempt : Nat) : Nat :=
  retry_delay * (attempt + 1)

/-- Trace of one `extract_video_info` run: the returned value, the number
of `extract_info` calls made (primary attempts plus fallback calls), and
the retry sleeps performed, in order. -/
structure ExtractTrace where
  result : Option VideoInfo
  calls : Nat
  sleeps : List Nat
deriving DecidableEq

/-- One iteration of the `for attempt in range(max_retries)` loop of
`extract_video_info` (source lines 44-136): `attempt` is the current
0-based attempt index, `k` the index of this iteration's resolver call,
`t` the trace of the remaining iterations and `last` whether this is the
final attempt.  On an exception, the bot-detection signature diverts to
`extract_with_fallback`; the three terminal signatures return `None` at
once; any other error gives up on the last attempt, else sleeps
`retry_sleep_time attempt` and continues with the remaining iterations. -/
def extract_attempt_once (oracle : Nat → CallResult) (url : String)
    (attempt k : Nat) (t : ExtractTrace) (last : Bool) : ExtractTrace :=
  match oracle k with
  | CallResult.ok none => ⟨none, k + 1, []⟩
  | CallResult.ok (some info) =>
    ⟨some (mk_video_info info (select_stream_url info url)), k + 1, []⟩
  | CallResult.exn msg =>
    if strContains msg bot_signature then
      let fb := extract_with_fallback oracle url (k + 1)
      ⟨fb.1, fb.2, []⟩
    else if strContains msg "Video unavailable" then ⟨none, k + 1, []⟩
    else if strContains msg "Private video" then ⟨none, k + 1, []⟩
    else if strContains msg "This video is not available" then ⟨none, k + 1, []⟩
    else if last then ⟨none, k + 1, []⟩
    else ⟨t.result, t.calls, retry_sleep_time attempt :: t.sleeps⟩

/-- The attempt loop of `extract_video_info`, as recursion on the number
of attempts still available (`remaining = max_retries - attempt`). -/
def extract_attempt_loop (oracle : Nat → CallResult) (url : String) :
    Nat → Nat → Nat → ExtractTrace
  | 0, _, k => ⟨none, k, []⟩
  | remaining + 1, attempt, k =>
    extract_attempt_once oracle url attempt k
      (extract_attempt_loop oracle url remaining (attempt + 1) (k + 1))
      (remaining == 0)

/-- Source `extract_video_info` (lines 39-136): run the attempt loop with
`max_retries` attempts from attempt 0 and call index 0. -/
def extract_video_info (oracle : Nat → CallResult) (url : String) : ExtractTrace :=
  extract_attempt_loop oracle url max_retries 0 0

/-! ## Record assembler and batch runner (source lines 18-37, 253-416) -/

/-- Per-record nondeterministic environment: the three fresh UUIDs of
`generate_uuids` (source lines 24-30) and the single timestamp snapshot of
`get_current_timestamp` (source lines 32-37), in its local-format and
ISO-8601 representations. -/
structure Env where
  changeuuid : String
  stationuuid : String
  serveruuid : String
  now_local : String
  now_iso : String

/-- Source `generate_uuids` (lines 24-30). -/
def generate_uuids (env : Env) : String × String × String :=
  (env.changeuuid, env.stationuuid, env.serveruuid)

/-- Source `get_current_timestamp` (lines 32-37): one snapshot, returned
as `(formatted_time, iso_time)`. -/
def get_current_timestamp (env : Env) : String × String :=
  (env.now_local, env.now_iso)

/-- The output record (`station_data`, source lines 281-319), fields in
source order.  `geo_lat`, `geo_long` and `geo_distance` are always `None`
in the source and are modelled as always-`none` options. -/
structure Station where
  changeuuid : String
  stationuuid : String
  serveruuid : String
  name : String
  url : String
  url_resolved : String
  homepage : String
  favicon : String
  tags : String
  country : String
  countrycode : String
  state : String
  language : String
  languagecodes : String
  votes : Nat
  lastchangetime : String
  lastchangetime_iso8601 : String
  codec : String
  bitrate : Nat
  file_name_from_url : String
  hls : Nat
  lastcheckok : Nat
  lastchecktime : String
  lastchecktime_iso8601 : String
  lastcheckoktime : String
  lastcheckoktime_iso8601 : String
  lastlocalchecktime : String
  lastlocalchecktime_iso8601 : String
  clicktimestamp : String
  clicktimestamp_iso8601 : String
  clickcount : Nat
  clicktrend : Nat
  ssl_error : Nat
  geo_lat : Option Nat
  geo_long : Option Nat
  geo_distance : Option Nat
  has_extended_info : Bool
deriving DecidableEq, Inhabited

/-- The `station_data` dictionary built by `process_video_link` on its
success path (source lines 266-319), from the environment snapshot, the
input URL and the extraction result. -/
def mk_station (env : Env) (url : String) (vi : VideoInfo) : Station :=
  let uuids := generate_uuids env
  let ts := get_current_timestamp env
  let last_change_time := ts.1
  let last_change_time_iso := ts.2
  let title := vi.title
  let stream_url := vi.stream_url
  let is_hls : Nat := if is_hls_url stream_url then 1 else 0
  let ci := get_codec_info stream_url
  let tags := extract_tags_from_title title
  let lang := guess_language_from_title title
  let language := lang.1
  let language_code := lang.2
  let filename := create_filename title stream_url
  { changeuuid := uuids.1
    stationuuid := uuids.2.1
    serveruuid := uuids.2.2
    name := pyTake title 80
    url := url
    url_resolved := stream_url
    homepage := "https://youtube.com"
    favicon := vi.thumbnail
    tags := pyTake tags 80
    country := "User Defined (" ++ language ++ " Videos)"
    countrycode := language_code
    state := language ++ " State"
    language := language
    languagecodes := pyTake (lowerStr language_code) 2
    votes := 0
    lastchangetime := last_change_time
    lastchangetime_iso8601 := last_change_time_iso
    codec := ci.1
    bitrate := ci.2
    file_name_from_url := pyTake filename 80
    hls := is_hls
    lastcheckok := 1
    lastchecktime := last_change_time
    lastchecktime_iso8601 := last_change_time_iso
    lastcheckoktime := last_change_time
    lastcheckoktime_iso8601 := last_change_time_iso
    lastlocalchecktime := last_change_time
    lastlocalchecktime_iso8601 := last_change_time_iso
    clicktimestamp := last_change_time
    clicktimestamp_iso8601 := last_change_time_iso
    clickcount := 0
    clicktrend := 0
    ssl_error := 0
    geo_lat := none
    geo_long := none
    geo_distance := none
    has_extended_info := false }

/-- The two per-item counters of the processor instance
(source lines 21-22). -/
structure PState where
  processed_count : Nat
  failed_count : Nat
deriving DecidableEq

/-- Source `process_video_link` (lines 253-323): extract; on a falsy
extraction result count a failure and return `None`; when the resolved
stream URL still contains `youtube.com/watch`, count a failure and return
`None`; otherwise build the record and count a success.  The `index`
argument of the source is only printed and is omitted. -/
def process_video_link (env : Env) (oracle : Nat → CallResult) (url : String)
    (st : PState) : Option Station × PState :=
  match (extract_video_info oracle url).result with
  | none => (none, ⟨st.processed_count, st.failed_count + 1⟩)
  | some vi =>
    if strContains vi.stream_url "youtube.com/watch" then
      (none, ⟨st.processed_count, st.failed_count + 1⟩)
    else
      (some (mk_station env url vi), ⟨st.processed_count + 1, st.failed_count⟩)

/-- Behaviour of one iteration of the batch loop for one link: either
`process_video_link` runs normally with the given per-item environment and
resolver oracle, or an unexpected exception escapes it (the `except`
branch of source lines 373-375). -/
inductive ItemStep where
  | normal (env : Env) (oracle : Nat → CallResult)
  | raises

/-- State held on the processor instance across the batch loop
(source lines 20-22). -/
structure SState where
  output_data : List Station
  processed_count : Nat
  failed_count : Nat
deriving DecidableEq

/-- The `for index, link in enumerate(links)` loop of `process_all_links`
(source lines 366-381): on a truthy record append it to `output_data`; on
an escaping exception increment `failed_count`; always continue with the
next link.  The inter-item `time.sleep(random.uniform(3, 8))` has no
observable effect and is not modelled. -/
def run_loop (step : Nat → ItemStep) : List String → Nat → SState → SState
  | [], _, st => st
  | link :: rest, i, st =>
    let st' :=
      match step i with
      | ItemStep.raises =>
        { st with failed_count := st.failed_count + 1 }
      | ItemStep.normal env oracle =>
        match process_video_link env oracle link ⟨st.processed_count, st.failed_count⟩ with
        | (some station_data, p) =>
          { output_data := st.output_data ++ [station_data],
            processed_count := p.processed_count,
            failed_count := p.failed_count }
        | (none, p) =>
          { st with processed_count := p.processed_count,
                    failed_count := p.failed_count }
    run_loop step rest (i + 1) st'

/-- Fresh processor state (`__init__`, source lines 19-22). -/
def initial_state : SState := ⟨[], 0, 0⟩

/-- Source `process_all_links` (lines 356-392), over the list of links its
`read_links_from_file` call returned, a per-index item behaviour, and the
outcome `save_ok` that `save_to_json` would report (write verified).
Returns `(overall_result, write_attempted, final_state)`: with no links it
fails at once; after the loop, with an empty `output_data` it fails
without calling `save_to_json`; otherwise it calls `save_to_json` and
returns its outcome. -/
def process_all_links (links : List String) (step : Nat → ItemStep)
    (save_ok : Bool) : Bool × Bool × SState :=
  if links.isEmpty then (false, false, initial_state)
  else
    let st := run_loop step links 0 initial_state
    if st.output_data.isEmpty then (false, false, st)
    else (save_ok, true, st)

/-- Source `main` (lines 394-416) as the process exit status: 1 when
`links.txt` does not exist; otherwise 0 iff `process_all_links` returned
success and `processed_count > 0`.  `links` is the list
`read_links_from_file` returns inside `process_all_links`.  (Named
`main_exit_status` because Lean reserves the name `main`.) -/
def main_exit_status (file_exists : Bool) (links : List String) (step : Nat → ItemStep)
    (save_ok : Bool) : Nat :=
  if !file_exists then 1
  else
    let r := process_all_links links step save_ok
    if r.1 && decide (0 < r.2.2.processed_count) then 0 else 1

/-! ## Input reading (source lines 325-336) -/

/-- The list comprehension of `read_links_from_file` (source line 329):
keep the lines whose strip is non-empty and that (unstripped) do not start
with `#`, and strip each kept line. -/
def filtered_links (lines : List String) : List String :=
  (lines.filter (fun l => !(pyStrip l == "") && !(strStartsWith l "#"))).map pyStrip

/-- Semantics of Python `list(set(xs))` for strings: some duplicate-free
list with exactly the members of `xs`.  CPython string hashing is
randomized per process, so the order is genuinely unspecified and the
construct is modelled as a relation. -/
def PySetList (xs out : List String) : Prop :=
  out.Nodup ∧ ∀ s, s ∈ out ↔ s ∈ xs

/-- Source `read_links_from_file` (lines 325-336) on a successfully read
file, as a relation between the file's lines and the returned list:
`list(set(links))` of the filtered, stripped lines.  (A missing or
unreadable file returns `[]`, handled by the `links` parameter of
`process_all_links`.) -/
def read_links_result (lines out : List String) : Prop :=
  PySetList (filtered_links lines) out

/-- Helper for `dedupFirst`: keep the elements not seen before, in order,
remembering the elements already seen. -/
def dedupFirstAux : List String → List String → List String
  | [], _ => []
  | x :: xs, seen =>
    if seen.contains x then dedupFirstAux xs seen
    else x :: dedupFirstAux xs (x :: seen)

/-- Modelled from the spec (claim C5's reading): duplicates removed
keeping the first occurrence of each element in its original position. -/
def dedupFirst (l : List String) : List String :=
  dedupFirstAux l []

/-- Modelled from the spec (claim C5's reading of `read_links_from_file`):
the trimmed lines that are non-empty and do not start with `#`, duplicates
removed, first occurrences keeping their relative order. -/
def spec_read_links (lines : List String) : List String :=
  dedupFirst ((lines.map pyStrip).filter
    (fun l => !(l == "") && !(strStartsWith l "#")))


/-! ## Derived field lists and error-classification predicates -/

/-- The local-format timestamp fields of the output record, in schema
order (source lines 297, 304, 306, 308, 310). -/
def station_local_timestamps (s : Station) : List String :=
  [s.lastchangetime, s.lastchecktime, s.lastcheckoktime,
   s.lastlocalchecktime, s.clicktimestamp]

/-- The ISO-8601 timestamp fields of the output record, in schema order
(source lines 298, 305, 307, 309, 311). -/
def station_iso_timestamps (s : Station) : List String :=
  [s.lastchangetime_iso8601, s.lastchecktime_iso8601, s.lastcheckoktime_iso8601,
   s.lastlocalchecktime_iso8601, s.clicktimestamp_iso8601]

/-- The error text matches one of the three terminal signatures of
`extract_video_info` (source lines 120-128). -/
def terminal_signature (m : String) : Bool :=
  strContains m "Video unavailable" || strContains m "Private video" ||
    strContains m "This video is not available"

/-- The error text matches none of the four known signatures of
`extract_video_info` (source lines 116-128). -/
def no_known_signature (m : String) : Bool :=
  !(strContains m bot_signature) && !(strContains m "Video unavailable") &&
    !(strContains m "Private video") && !(strContains m "This video is not available")

/-! ## Concrete scenario inputs -/

/-- Resolver info of spec Scenario A: title
`Tamil Nursery Rhyme Official Video`, direct stream URL
`https://cdn.example/abc.m4a`. -/
def scenario_a_info : ResolverInfo :=
  { url := some "https://cdn.example/abc.m4a", formats := [],
    title := some "Tamil Nursery Rhyme Official Video",
    description := none, thumbnail := none, duration := none,
    uploader := none, view_count := none }

/-- Resolver oracle of Scenario A: every call succeeds with
`scenario_a_info`. -/
def scenario_a_oracle : Nat → CallResult :=
  fun _ => CallResult.ok (some scenario_a_info)

/-- A fixed per-record environment sample (UUIDs and clock snapshot). -/
def sample_env : Env :=
  { changeuuid := "changeuuid-1", stationuuid := "stationuuid-1",
    serveruuid := "serveruuid-1", now_local := "2025-01-01T00:00:00",
    now_iso := "2025-01-01T00:00:00.000000Z" }

/-- Scenario A behaviour for every item of the batch loop. -/
def scenario_a_step : Nat → ItemStep :=
  fun _ => ItemStep.normal sample_env scenario_a_oracle

/-- The Scenario A batch run: input `["https://youtu.be/abc"]`, JSON write
succeeding. -/
def scenario_a_run : Bool × Bool × SState :=
  process_all_links ["https://youtu.be/abc"] scenario_a_step true

/-- The single record Scenario A emits. -/
def scenario_a_record : Station :=
  (process_video_link sample_env scenario_a_oracle "https://youtu.be/abc" ⟨0, 0⟩).1.getD default

/-- Resolver info whose resolved stream URL is still the original
`youtube.com/watch` page URL (spec Scenario C). -/
def scenario_c_info : ResolverInfo :=
  { url := some "https://www.youtube.com/watch?v=abc", formats := [],
    title := some "Some Title",
    description := none, thumbnail := none, duration := none,
    uploader := none, view_count := none }

/-- Resolver oracle of Scenario C. -/
def scenario_c_oracle : Nat → CallResult :=
  fun _ => CallResult.ok (some scenario_c_info)

/-- An error message carrying both the bot-detection signature and the
terminal signature `Video unavailable`. -/
def bot_terminal_msg : String :=
  "Sign in to confirm you\x27re not a bot. Video unavailable"

/-- Resolver oracle whose every call raises `bot_terminal_msg`. -/
def bot_terminal_oracle : Nat → CallResult :=
  fun _ => CallResult.exn bot_terminal_msg

/-! ## Helper lemmas -/

/-- `containsSeq` decides contiguous occurrence: the Boolean substring
test agrees with `List.IsInfix`. -/
theorem containsSeq_iff_infix (s pat : List Char) :
    containsSeq s pat = true ↔ pat <:+: s := by
  induction s with
  | nil => simp [containsSeq, List.isEmpty_iff]
  | cons c cs ih =>
    simp [containsSeq, List.isPrefixOf_iff_prefix, ih, List.infix_cons_iff]

/-- `strContains` on strings is occurrence of the pattern's characters as
an infix of the string's characters. -/
theorem strContains_iff_infix (s pat : String) :
    strContains s pat = true ↔ pat.data <:+: s.data :=
  containsSeq_iff_infix s.data pat.data

/-- Every run produced by `wordRunsF` is a non-empty block of word
characters occurring contiguously in the input. -/
theorem wordRunsF_sound (fuel : Nat) :
    ∀ l : List Char, ∀ r ∈ wordRunsF fuel l,
      r ≠ [] ∧ r.all isWordChar = true ∧ r <:+: l := by
  induction fuel with
  | zero => intro l r hr; simp [wordRunsF] at hr
  | succ fuel ih =>
    intro l r hr
    match l with
    | [] => simp [wordRunsF] at hr
    | c :: cs =>
      rw [wordRunsF] at hr
      by_cases hc : isWordChar c
      · rw [if_pos hc, List.mem_cons] at hr
        rcases hr with rfl | hr
        · refine ⟨by simp, ?_, ?_⟩
          · rw [List.all_cons, hc, Bool.true_and, List.all_eq_true]
            exact fun a ha => List.mem_takeWhile_imp ha
          · exact (by simpa [List.cons_prefix_cons] using
              (List.takeWhile_prefix (p := isWordChar) (l := cs)) :
                c :: cs.takeWhile isWordChar <+: c :: cs).isInfix
        · obtain ⟨hne, hall, hinf⟩ := ih _ r hr
          exact ⟨hne, hall,
            (hinf.trans (List.dropWhile_suffix isWordChar).isInfix).trans
              (List.suffix_cons c cs).isInfix⟩
      · rw [if_neg hc] at hr
        obtain ⟨hne, hall, hinf⟩ := ih _ r hr
        exact ⟨hne, hall, hinf.trans (List.suffix_cons c cs).isInfix⟩

/-- Every tag word kept by `tag_words` is a non-empty all-word-character
block of length over 2, is none of the stop words, and occurs contiguously
in the lower-cased title. -/
theorem tag_words_sound (title : String) :
    ∀ w ∈ tag_words title,
      2 < w.length ∧ w ∉ common_words ∧ w.data ≠ [] ∧
        w.data.all isWordChar = true ∧ w.data <:+: (lowerStr title).data := by
  intro w hw
  have hw' := List.mem_of_mem_take hw
  rw [List.mem_filter] at hw'
  obtain ⟨hmem, hcond⟩ := hw'
  rw [Bool.and_eq_true, Bool.not_eq_true', decide_eq_true_eq] at hcond
  obtain ⟨hstop, hlen⟩ := hcond
  rw [List.mem_map] at hmem
  obtain ⟨r, hr, rfl⟩ := hmem
  obtain ⟨hne, hall, hinf⟩ := wordRunsF_sound _ _ r hr
  refine ⟨hlen, ?_, hne, hall, hinf⟩
  intro hmem'
  rw [← List.elem_iff] at hmem'
  simp [List.contains] at hstop
  exact absurd hmem' (by simp [hstop])

/-- Shape of a successful `process_video_link`: it emits a record exactly
when extraction returned a result whose stream URL does not contain
`youtube.com/watch`, the record is `mk_station` of that result, and the
success counter is incremented. -/
theorem process_video_link_some_iff (env : Env) (oracle : Nat → CallResult)
    (url : String) (st : PState) (r : Station) (st' : PState) :
    process_video_link env oracle url st = (some r, st') ↔
      ∃ vi, (extract_video_info oracle url).result = some vi ∧
        strContains vi.stream_url "youtube.com/watch" = false ∧
        r = mk_station env url vi ∧
        st' = ⟨st.processed_count + 1, st.failed_count⟩ := by
  constructor
  · intro h
    unfold process_video_link at h
    cases hres : (extract_video_info oracle url).result with
    | none => rw [hres] at h; simp at h
    | some vi =>
      rw [hres] at h
      by_cases hg : strContains vi.stream_url "youtube.com/watch"
      · simp [hg] at h
      · simp only [Bool.not_eq_true] at hg
        simp [hg] at h
        exact ⟨vi, rfl, hg, h.1.symm, h.2.symm⟩
  · rintro ⟨vi, hvi, hg, rfl, rfl⟩
    unfold process_video_link
    rw [hvi]
    simp [hg]

/-- `process_video_link` increments exactly one of the two counters:
the success counter when it returns a record, the failure counter when it
returns `None`. -/
theorem process_video_link_counts (env : Env) (oracle : Nat → CallResult)
    (url : String) (st : PState) :
    (∃ r, process_video_link env oracle url st
        = (some r, ⟨st.processed_count + 1, st.failed_count⟩))
    ∨ process_video_link env oracle url st
        = (none, ⟨st.processed_count, st.failed_count + 1⟩) := by
  unfold process_video_link
  cases hres : (extract_video_info oracle url).result with
  | none => exact Or.inr rfl
  | some vi =>
    by_cases hg : strContains vi.stream_url "youtube.com/watch"
    · simp [hg]
    · simp [hg]

/-- Batch-loop invariant: each iterated link adds exactly one to the sum
of the two counters, and the length of the output accumulator tracks the
success counter. -/
theorem run_loop_counts (step : Nat → ItemStep) (links : List String) :
    ∀ (i : Nat) (st : SState),
      ((run_loop step links i st).processed_count + (run_loop step links i st).failed_count
          = st.processed_count + st.failed_count + links.length)
      ∧ (st.output_data.length = st.processed_count →
          (run_loop step links i st).output_data.length
            = (run_loop step links i st).processed_count) := by
  induction links with
  | nil => intro i st; simp [run_loop]
  | cons link rest ih =>
    intro i st
    have hstep : ∃ st1 : SState,
        run_loop step (link :: rest) i st = run_loop step rest (i + 1) st1
        ∧ st1.processed_count + st1.failed_count
            = st.processed_count + st.failed_count + 1
        ∧ (st.output_data.length = st.processed_count →
            st1.output_data.length = st1.processed_count) := by
      rw [run_loop]
      cases hs : step i with
      | raises =>
        exact ⟨⟨st.output_data, st.processed_count, st.failed_count + 1⟩,
          rfl, by simp; omega, fun h => by simpa using h⟩
      | normal env oracle =>
        rcases process_video_link_counts env oracle link
            ⟨st.processed_count, st.failed_count⟩ with ⟨r, hr⟩ | hr
        · simp only [hr]
          exact ⟨⟨st.output_data ++ [r], st.processed_count + 1, st.failed_count⟩,
            rfl, by simp; omega, fun h => by simp [h]⟩
        · simp only [hr]
          exact ⟨⟨st.output_data, st.processed_count, st.failed_count + 1⟩,
            rfl, by simp; omega, fun h => by simpa using h⟩
    obtain ⟨st1, heq, hsum, hlen⟩ := hstep
    have h := ih (i + 1) st1
    rw [heq]
    refine ⟨?_, fun h0 => h.2 (hlen h0)⟩
    rw [h.1, List.length_cons]
    omega

/-- An attempt that raises an error with a terminal signature and without
the bot-detection signature ends the whole extraction at once: no further
call, no sleep. -/
theorem extract_attempt_terminal (oracle : Nat → CallResult) (url : String)
    (remaining attempt k : Nat) (msg : String)
    (hk : oracle k = CallResult.exn msg)
    (hbot : strContains msg bot_signature = false)
    (hterm : terminal_signature msg = true) :
    extract_attempt_loop oracle url (remaining + 1) attempt k
      = ⟨none, k + 1, []⟩ := by
  by_cases h1 : strContains msg "Video unavailable"
  · simp [extract_attempt_loop, extract_attempt_once, hk, hbot, h1]
  · by_cases h2 : strContains msg "Private video"
    · simp [extract_attempt_loop, extract_attempt_once, hk, hbot, h1, h2]
    · have h3 : strContains msg "This video is not available" = true := by
        simpa [terminal_signature, h1, h2] using hterm
      simp [extract_attempt_loop, extract_attempt_once, hk, hbot, h1, h2, h3]

/-! ## Claims -/

/-- C2, counterexample: an error text containing the terminal signature
`Video unavailable` together with the bot-detection signature does NOT
fail immediately with exactly one resolution call — the bot-detection
branch is checked first and diverts to the fallback, which makes a second
resolver call. -/
theorem claim_C2_counterexample :
    strContains bot_terminal_msg "Video unavailable" = true
    ∧ (extract_video_info bot_terminal_oracle "https://youtu.be/x").calls = 2
    ∧ (extract_video_info bot_terminal_oracle "https://youtu.be/x").calls ≠ 1 :=
  ⟨by decide, by decide, by decide⟩

/-- C2 (amended): when the first extraction attempt raises an error whose
text contains a terminal signature and does not contain the bot-detection
signature, `extract_video_info` fails at once with exactly one resolution
call, no sleep; when both attempts raise errors matching no known
signature it fails after 2 attempts, sleeping `retry_sleep_time 0`
between them; the retry delay grows strictly with the attempt number. -/
theorem claim_C2 (oracle : Nat → CallResult) (url msg : String)
    (h0 : oracle 0 = CallResult.exn msg) :
    (strContains msg bot_signature = false → terminal_signature msg = true →
      extract_video_info oracle url = ⟨none, 1, []⟩)
    ∧ (no_known_signature msg = true →
        ∀ msg1, oracle 1 = CallResult.exn msg1 → no_known_signature msg1 = true →
          extract_video_info oracle url = ⟨none, 2, [retry_sleep_time 0]⟩)
    ∧ (∀ a b : Nat, a < b → retry_sleep_time a < retry_sleep_time b) := by
  refine ⟨fun hbot hterm => ?_, fun hu msg1 h1 hu1 => ?_, fun a b hab => ?_⟩
  · exact extract_attempt_terminal oracle url 1 0 0 msg h0 hbot hterm
  · simp only [no_known_signature, Bool.and_eq_true, Bool.not_eq_true'] at hu hu1
    obtain ⟨⟨⟨hb, hv⟩, hp⟩, hn⟩ := hu
    obtain ⟨⟨⟨hb1, hv1⟩, hp1⟩, hn1⟩ := hu1
    have e1 : extract_video_info oracle url
        = extract_attempt_once oracle url 0 0
            (extract_attempt_once oracle url 1 1 ⟨none, 2, []⟩ true) false := by
      show extract_attempt_loop oracle url 2 0 0 = _
      rfl
    rw [e1]
    simp [extract_attempt_once, h0, h1, hb, hv, hp, hn, hb1, hv1, hp1, hn1]
  · simp only [retry_sleep_time, retry_delay]
    omega

/-- C2, witness: a pure `Private video` error fails with one call and no
sleep; two unrecognized errors exhaust both attempts with one sleep. -/
theorem claim_C2_witness :
    extract_video_info (fun _ => CallResult.exn "ERROR: Private video") "https://youtu.be/x"
        = ⟨none, 1, []⟩
    ∧ extract_video_info (fun _ => CallResult.exn "HTTP Error 500") "https://youtu.be/x"
        = ⟨none, 2, [retry_sleep_time 0]⟩ :=
  ⟨(claim_C2 (fun _ => CallResult.exn "ERROR: Private video") "https://youtu.be/x"
      "ERROR: Private video" rfl).1 (by decide) (by decide),
   (claim_C2 (fun _ => CallResult.exn "HTTP Error 500") "https://youtu.be/x"
      "HTTP Error 500" rfl).2.1 (by decide) "HTTP Error 500" rfl (by decide)⟩

/-- C3: when extraction nominally succeeds but the resolved stream URL
still contains `youtube.com/watch` (in particular when it still equals the
original watch-page URL), `process_video_link` rejects the record: no
output record and the failure counter is incremented. -/
theorem claim_C3 (env : Env) (oracle : Nat → CallResult) (url : String)
    (st : PState) (vi : VideoInfo)
    (hres : (extract_video_info oracle url).result = some vi)
    (hpage : strContains vi.stream_url "youtube.com/watch" = true) :
    process_video_link env oracle url st
      = (none, ⟨st.processed_count, st.failed_count + 1⟩) := by
  unfold process_video_link
  rw [hres]
  simp [hpage]

/-- C3, witness: a resolver answer whose stream URL equals the original
`youtube.com/watch` page URL is rejected and counted as a failure. -/
theorem claim_C3_witness :
    process_video_link sample_env scenario_c_oracle
        "https://www.youtube.com/watch?v=abc" ⟨0, 0⟩ = (none, ⟨0, 1⟩) :=
  claim_C3 sample_env scenario_c_oracle "https://www.youtube.com/watch?v=abc" ⟨0, 0⟩
    (mk_video_info scenario_c_info "https://www.youtube.com/watch?v=abc")
    (by decide) (by decide)

/-- C4, counterexample: the output record has five timestamp-pair slots,
not six — the schema holds exactly five local-format timestamp fields and
five ISO-8601 timestamp fields. -/
theorem claim_C4_counterexample :
    (station_local_timestamps scenario_a_record).length = 5
    ∧ (station_iso_timestamps scenario_a_record).length = 5
    ∧ (5 : Nat) ≠ 6 :=
  ⟨rfl, rfl, by decide⟩

/-- C4 (amended): every record emitted by `process_video_link` has its
FIVE timestamp-pair slots pairwise equal within the record: all five
local-format fields hold the environment's single snapshot in local
format, and all five ISO-8601 fields hold the same snapshot in ISO
format. -/
theorem claim_C4 (env : Env) (oracle : Nat → CallResult) (url : String)
    (st : PState) (r : Station) (st' : PState)
    (h : process_video_link env oracle url st = (some r, st')) :
    (∀ t ∈ station_local_timestamps r, t = env.now_local)
    ∧ (∀ t ∈ station_iso_timestamps r, t = env.now_iso) := by
  obtain ⟨vi, -, -, rfl, -⟩ := (process_video_link_some_iff env oracle url st r st').mp h
  constructor
  · intro t ht
    simp [station_local_timestamps, mk_station, get_current_timestamp] at ht
    simp [ht]
  · intro t ht
    simp [station_iso_timestamps, mk_station, get_current_timestamp] at ht
    simp [ht]

/-- C4, witness: in the Scenario A record the click timestamp pair equals
the environment snapshot. -/
theorem claim_C4_witness :
    scenario_a_record.clicktimestamp = sample_env.now_local
    ∧ scenario_a_record.clicktimestamp_iso8601 = sample_env.now_iso := by
  have h := claim_C4 sample_env scenario_a_oracle "https://youtu.be/abc" ⟨0, 0⟩
    scenario_a_record ⟨1, 0⟩ (by rfl)
  exact ⟨h.1 _ (by simp [station_local_timestamps]),
    h.2 _ (by simp [station_iso_timestamps])⟩

/-- C6: every record emitted by `process_video_link` has `hls = 1` iff its
`url_resolved` contains `.m3u8` case-insensitively; equivalently,
`is_hls_url` is exactly the lower-cased `.m3u8` containment test. -/
theorem claim_C6 (env : Env) (oracle : Nat → CallResult) (url : String)
    (st : PState) (r : Station) (st' : PState)
    (h : process_video_link env oracle url st = (some r, st')) :
    (r.hls = 1 ↔ strContains (lowerStr r.url_resolved) ".m3u8" = true)
    ∧ ∀ s : String, is_hls_url s = strContains (lowerStr s) ".m3u8" := by
  obtain ⟨vi, -, -, rfl, -⟩ := (process_video_link_some_iff env oracle url st r st').mp h
  refine ⟨?_, fun s => rfl⟩
  show (mk_station env url vi).hls = 1 ↔ _
  by_cases hh : is_hls_url vi.stream_url
  · simp [mk_station, hh]
    exact hh
  · simp [mk_station, hh]
    simpa [is_hls_url] using hh

/-- C6, witness: the Scenario A record resolves to a `.m4a` stream, so its
`hls` flag is 0 and the biconditional is satisfied on the false side. -/
theorem claim_C6_witness :
    scenario_a_record.hls = 1
      ↔ strContains (lowerStr scenario_a_record.url_resolved) ".m3u8" = true :=
  (claim_C6 sample_env scenario_a_oracle "https://youtu.be/abc" ⟨0, 0⟩
    scenario_a_record ⟨1, 0⟩ (by rfl)).1

/-- C7: `extract_tags_from_title` lower-cases the title, keeps (in order,
without de-duplication) at most the first 6 words that are not stop words
and have length over 2 — each kept tag is a non-empty all-word-character
run occurring contiguously in the lower-cased title — joined by commas; a
title with zero qualifying words yields the empty string, not an error. -/
theorem claim_C7 (title : String) :
    extract_tags_from_title title = pyJoin "," (tag_words title)
    ∧ (tag_words title).length ≤ 6
    ∧ (∀ w ∈ tag_words title, 2 < w.length ∧ w ∉ common_words ∧ w.data ≠ [] ∧
        w.data.all isWordChar = true ∧ w.data <:+: (lowerStr title).data)
    ∧ (extract_tags_from_title title = "" ↔ tag_words title = []) := by
  refine ⟨rfl, ?_, ?_, ?_⟩
  · rw [tag_words]
    exact List.length_take_le 6 _
  · exact tag_words_sound title
  constructor
  · intro he
    by_contra hne
    obtain ⟨w, ws, hcons⟩ : ∃ w ws, tag_words title = w :: ws := by
      cases htw : tag_words title with
      | nil => exact absurd htw hne
      | cons w ws => exact ⟨w, ws, rfl⟩
    have hw := tag_words_sound title w (hcons ▸ List.mem_cons_self w ws)
    have hdata : (extract_tags_from_title title).data = [] := by rw [he]
    rw [extract_tags_from_title, hcons] at hdata
    cases ws with
    | nil => exact hw.2.2.1 hdata
    | cons w2 ws2 =>
      have e : pyJoin "," (w :: w2 :: ws2) = w ++ "," ++ pyJoin "," (w2 :: ws2) := rfl
      rw [e] at hdata
      simp [String.data_append] at hdata
  · intro h
    rw [extract_tags_from_title, h]
    rfl

/-- C7, witness: `The HD` has no qualifying tag word and yields the empty
string; a real title keeps at most 6 tags. -/
theorem claim_C7_witness :
    extract_tags_from_title "The HD" = ""
    ∧ (tag_words "Tamil Nursery Rhyme Official Video").length ≤ 6 :=
  ⟨(claim_C7 "The HD").2.2.2.mpr (by rfl),
   (claim_C7 "Tamil Nursery Rhyme Official Video").2.1⟩

/-- Every entry of the bitrate table is 128 and so is the default: the
lookup is constant. -/
theorem bitrate_of_ext_128 (ext : String) : bitrate_of_ext ext = 128 := by
  unfold bitrate_of_ext
  split_ifs <;> rfl

/-- The codec lookup always lands in the fixed label table. -/
theorem codec_of_ext_mem (ext : String) :
    codec_of_ext ext ∈ (["MP4A", "MP3", "AAC", "OPUS", "OGG", "HLS"] : List String) := by
  unfold codec_of_ext
  split_ifs <;> simp

/-- An extension outside the table falls back to the generic `MP4A`. -/
theorem codec_of_ext_default (ext : String)
    (h : ext ∉ (["m4a", "mp4", "mp3", "aac", "webm", "ogg", "m3u8"] : List String)) :
    codec_of_ext ext = "MP4A" := by
  unfold codec_of_ext
  split_ifs with h1 h2 h3 h4 h5 h6 h7 <;> simp_all

set_option maxHeartbeats 1000000 in
/-- C8: `get_codec_info` returns bitrate 128 regardless of extension; its
codec label comes from the fixed table, defaulting unknown extensions to
`MP4A`; and a URL whose path has no dot gets the defaults, with
`create_filename` producing a name ending in `.m4a`. -/
theorem claim_C8 (url title : String) :
    (get_codec_info url).2 = 128
    ∧ (get_codec_info url).1 ∈ (["MP4A", "MP3", "AAC", "OPUS", "OGG", "HLS"] : List String)
    ∧ (get_file_extension url ∉ (["m4a", "mp4", "mp3", "aac", "webm", "ogg", "m3u8"] : List String) →
        (get_codec_info url).1 = "MP4A")
    ∧ (strContains (urlparse_path url) "." = false →
        get_codec_info url = ("MP4A", 128)
        ∧ ".m4a".data <:+ (create_filename title url).data) := by
  have e1 : get_codec_info url
      = (codec_of_ext (get_file_extension url), bitrate_of_ext (get_file_extension url)) := rfl
  refine ⟨?_, ?_, fun hu => ?_, fun hnd => ?_⟩
  · rw [e1]
    exact bitrate_of_ext_128 _
  · rw [e1]
    exact codec_of_ext_mem _
  · rw [e1]
    exact codec_of_ext_default _ hu
  · have hext : get_file_extension url = "" := by
      rw [get_file_extension]
      simp [hnd]
    constructor
    · rw [e1, hext]
      rfl
    · rw [create_filename]
      simp only [hext, ne_eq, not_true_eq_false, if_false]
      rw [String.data_append]
      exact List.suffix_append _ _

/-- C8, witness: `https://cdn.example/stream` has no extension in its
path, so the defaults apply and the filename ends in `.m4a`. -/
theorem claim_C8_witness :
    get_codec_info "https://cdn.example/stream" = ("MP4A", 128)
    ∧ ".m4a".data <:+ (create_filename "Hello World" "https://cdn.example/stream").data := by
  have h := (claim_C8 "https://cdn.example/stream" "Hello World").2.2.2 (by decide)
  exact ⟨h.1, h.2⟩

/-- C9, counterexample: on Scenario A's input the run emits exactly one
record, but its filename keeps the stop words — it is
`Tamil_Nursery_Rhyme_Official_Video.m4a`, not the claimed
`Tamil_Nursery_Rhyme.m4a` (`create_filename` never removes stop words). -/
theorem claim_C9_counterexample :
    scenario_a_run.2.2.output_data = [scenario_a_record]
    ∧ scenario_a_record.file_name_from_url = "Tamil_Nursery_Rhyme_Official_Video.m4a"
    ∧ ("Tamil_Nursery_Rhyme_Official_Video.m4a" : String) ≠ "Tamil_Nursery_Rhyme.m4a" :=
  ⟨by rfl, by rfl, by decide⟩

/-- C9 (amended): on input `["https://youtu.be/abc"]` with the resolver
returning title `Tamil Nursery Rhyme Official Video` and stream URL
`https://cdn.example/abc.m4a`, the run produces exactly one record, with
codec `MP4A`, bitrate 128, `hls` 0, language `Tamil`, and
`file_name_from_url` equal to `Tamil_Nursery_Rhyme_Official_Video.m4a`
(stop words are removed from the tags, not from the filename). -/
theorem claim_C9 :
    scenario_a_run.2.2.output_data = [scenario_a_record]
    ∧ scenario_a_run.2.2.processed_count = 1
    ∧ scenario_a_record.codec = "MP4A"
    ∧ scenario_a_record.bitrate = 128
    ∧ scenario_a_record.hls = 0
    ∧ scenario_a_record.language = "Tamil"
    ∧ scenario_a_record.file_name_from_url = "Tamil_Nursery_Rhyme_Official_Video.m4a" :=
  ⟨by rfl, by rfl, by rfl, by rfl, by rfl, by rfl, by rfl⟩

/-- C5, counterexample: `read_links_from_file` checks `startswith('#')` on
the raw line and strips afterwards, so the line `  #x` (leading blanks
before `#`) is kept as `#x`, although the claim's filter would drop it;
and `list(set(...))` may return the members in an order that breaks
first-occurrence order (here `["a", "b"]` is a legal result for input
`["b", "a", "b"]`, whose first-occurrence order is `["b", "a"]`). -/
theorem claim_C5_counterexample :
    read_links_result ["  #x"] ["#x"]
    ∧ spec_read_links ["  #x"] = []
    ∧ (["#x"] : List String) ≠ []
    ∧ read_links_result ["b", "a", "b"] ["a", "b"]
    ∧ spec_read_links ["b", "a", "b"] = ["b", "a"]
    ∧ (["a", "b"] : List String) ≠ ["b", "a"] := by
  refine ⟨⟨by decide, fun s => ?_⟩, by rfl, by decide, ⟨by decide, fun s => ?_⟩, by rfl, by decide⟩
  · rw [show filtered_links ["  #x"] = ["#x"] from rfl]
  · rw [show filtered_links ["b", "a", "b"] = ["b", "a", "b"] from rfl]
    simp only [List.mem_cons, List.not_mem_nil, or_false]
    constructor
    · rintro (rfl | rfl)
      · exact Or.inr (Or.inl rfl)
      · exact Or.inl rfl
    · rintro (rfl | rfl | rfl)
      · exact Or.inr rfl
      · exact Or.inl rfl
      · exact Or.inr rfl

/-- C5 (amended): `read_links_from_file` returns a duplicate-free list
containing exactly the strips of the lines that strip to non-empty and
whose raw (unstripped) line does not start with `#`; the order of the
returned list is unspecified (`list(set(...))` with randomized string
hashing). -/
theorem claim_C5 (lines out : List String) (h : read_links_result lines out) :
    out.Nodup
    ∧ ∀ s, s ∈ out ↔
        ∃ l, l ∈ lines ∧ pyStrip l = s ∧ pyStrip l ≠ "" ∧ strStartsWith l "#" = false := by
  obtain ⟨hnd, hmem⟩ := h
  refine ⟨hnd, fun s => (hmem s).trans ?_⟩
  simp only [filtered_links, List.mem_map, List.mem_filter, Bool.and_eq_true,
    Bool.not_eq_true', beq_eq_false_iff_ne, ne_eq]
  constructor
  · rintro ⟨l, ⟨hl, hne, hsw⟩, rfl⟩
    exact ⟨l, hl, rfl, hne, hsw⟩
  · rintro ⟨l, hl, rfl, hne, hsw⟩
    exact ⟨l, ⟨hl, hne, hsw⟩, rfl⟩

/-- C5, witness: a concrete admissible run of `read_links_from_file` on
`["a", "", "#c", "a"]` returning `["a"]` satisfies the amended claim. -/
theorem claim_C5_witness : (["a"] : List String).Nodup :=
  (claim_C5 ["a", "", "#c", "a"] ["a"]
    ⟨by decide, fun s => by rw [show filtered_links ["a", "", "#c", "a"] = ["a", "a"] from rfl]; simp⟩).1

/-- With a non-empty link list, the state `process_all_links` reports is
exactly the state the batch loop computed (whether or not anything was
written). -/
theorem process_all_links_state (links : List String) (step : Nat → ItemStep)
    (save_ok : Bool) (l : String) (ls : List String) (h : links = l :: ls) :
    (process_all_links links step save_ok).2.2
      = run_loop step links 0 initial_state := by
  subst h
  rw [process_all_links]
  simp only [List.isEmpty_cons, Bool.false_eq_true, if_false]
  split <;> rfl

/-- C10: in every run each iterated link increments exactly one of the two
counters, so at the end of the batch `processed_count` equals the number
of accumulated output records and `processed_count + failed_count` equals
the number of links iterated. -/
theorem claim_C10 (links : List String) (step : Nat → ItemStep) (save_ok : Bool) :
    (process_all_links links step save_ok).2.2.processed_count
        = (process_all_links links step save_ok).2.2.output_data.length
    ∧ (process_all_links links step save_ok).2.2.processed_count
        + (process_all_links links step save_ok).2.2.failed_count = links.length := by
  cases links with
  | nil => simp [process_all_links, initial_state]
  | cons l ls =>
    rw [process_all_links_state (l :: ls) step save_ok l ls rfl]
    have h := run_loop_counts step (l :: ls) 0 initial_state
    have h2 := h.2 (by simp [initial_state])
    have h1 := h.1
    simp only [initial_state] at h1
    exact ⟨h2.symm, by simpa using h1⟩

/-- C1: the exit status is 0 exactly when the input file exists, at least
one record was produced, and the JSON write succeeded; and whenever zero
records were produced (in particular when every item failed) nothing is
written — `save_to_json` is never called — and the exit status is
non-zero. -/
theorem claim_C1 (file_exists : Bool) (links : List String)
    (step : Nat → ItemStep) (save_ok : Bool) :
    (main_exit_status file_exists links step save_ok = 0 ↔
      file_exists = true
      ∧ 0 < (process_all_links links step save_ok).2.2.processed_count
      ∧ save_ok = true)
    ∧ ((process_all_links links step save_ok).2.2.processed_count = 0 →
        (process_all_links links step save_ok).2.2.output_data = []
        ∧ (process_all_links links step save_ok).2.1 = false
        ∧ main_exit_status file_exists links step save_ok ≠ 0) := by
  cases links with
  | nil =>
    cases file_exists <;> cases save_ok <;>
      simp [main_exit_status, process_all_links, initial_state]
  | cons l ls =>
    have hst := process_all_links_state (l :: ls) step save_ok l ls rfl
    have hlen : (run_loop step (l :: ls) 0 initial_state).output_data.length
        = (run_loop step (l :: ls) 0 initial_state).processed_count :=
      (run_loop_counts step (l :: ls) 0 initial_state).2 (by simp [initial_state])
    have hmain : main_exit_status file_exists (l :: ls) step save_ok
        = if !file_exists then 1
          else if (process_all_links (l :: ls) step save_ok).1
              && decide (0 < (process_all_links (l :: ls) step save_ok).2.2.processed_count)
            then 0 else 1 := rfl
    by_cases ho : (run_loop step (l :: ls) 0 initial_state).output_data.isEmpty
    · have hp : (process_all_links (l :: ls) step save_ok)
          = (false, false, run_loop step (l :: ls) 0 initial_state) := by
        rw [process_all_links]
        simp only [List.isEmpty_cons, Bool.false_eq_true, if_false]
        rw [if_pos ho]
      have hzero : (run_loop step (l :: ls) 0 initial_state).processed_count = 0 := by
        rw [← hlen]
        simp [List.isEmpty_iff.mp ho]
      rw [hmain, hp]
      cases file_exists <;> cases save_ok <;>
        simp [hzero, List.isEmpty_iff.mp ho]
    · have hp : (process_all_links (l :: ls) step save_ok)
          = (save_ok, true, run_loop step (l :: ls) 0 initial_state) := by
        rw [process_all_links]
        simp only [List.isEmpty_cons, Bool.false_eq_true, if_false]
        rw [if_neg ho]
      have hpos : 0 < (run_loop step (l :: ls) 0 initial_state).processed_count := by
        rw [← hlen]
        have : (run_loop step (l :: ls) 0 initial_state).output_data ≠ [] := by
          simpa [List.isEmpty_iff] using ho
        exact List.length_pos.mpr this
      rw [hmain, hp]
      cases file_exists <;> cases save_ok <;> simp [hpos, Nat.pos_iff_ne_zero.mp hpos]

/-- C1, witness: the Scenario A run exits 0. -/
theorem claim_C1_witness :
    main_exit_status true ["https://youtu.be/abc"] scenario_a_step true = 0 :=
  (claim_C1 true ["https://youtu.be/abc"] scenario_a_step true).1.mpr
    ⟨rfl, by decide, rfl⟩
